import Mathlib

/-!
Verification of the pollen-app personalization and state-synchronization core.

The numeric model uses rationals for every quantity the code rounds to
decimal digits (risk scores, coordinate rounding for request keys), and
reals for the trigonometric great-circle distance. JavaScript's
Math.round(x) is modelled as the floor of x + 1/2 (ties toward positive
infinity), matching the ECMAScript definition on the nonnegative values
arising here; Number.prototype.toFixed uses the same tie direction.
-/

namespace PollenApp

/-- Model of JavaScript Math.round over the rationals: floor of x + 1/2. -/
def jsRound (x : ℚ) : ℤ := ⌊x + 1/2⌋

/-- Rounding to one decimal place, as the code does with Math.round(x * 10) / 10. -/
def roundTo1 (x : ℚ) : ℚ := (jsRound (x * 10) : ℚ) / 10

/-- Clamping into a closed interval, as Math.max(lo, Math.min(hi, x)). -/
def clampQ (lo hi x : ℚ) : ℚ := max lo (min hi x)

/-- The four discrete risk levels of types/pollen RiskLevel. -/
inductive RiskLevel
  | low
  | moderate
  | high
  | veryHigh
deriving DecidableEq, Repr

/-- Thresholds of RISK_CONFIG in calculateRisk.ts. -/
structure RiskThresholds where
  low : ℚ
  moderate : ℚ
  high : ℚ
deriving DecidableEq

/-- Weights of RISK_CONFIG in calculateRisk.ts. -/
structure RiskWeights where
  tree : ℚ
  grass : ℚ
  weed : ℚ
deriving DecidableEq

/-- Shape of the RISK_CONFIG constant. -/
structure RiskConfig where
  thresholds : RiskThresholds
  weights : RiskWeights
  maxRiskScore : ℚ
deriving DecidableEq

/-- RISK_CONFIG from calculateRisk.ts lines 32-50. -/
def RISK_CONFIG : RiskConfig :=
  { thresholds := { low := 2, moderate := 5, high := 8 }
    weights := { tree := 1, grass := 1, weed := 1 }
    maxRiskScore := 50 }

/-- calculatePollenRiskScore from calculateRisk.ts lines 60-77: clamp both
inputs into range, apply (index * sensitivity) / 10, round to one decimal. -/
def calculatePollenRiskScore (pollenIndex userSensitivity : ℚ) : ℚ :=
  let pollenIndex := if pollenIndex < 0 ∨ pollenIndex > 5
    then max 0 (min 5 pollenIndex) else pollenIndex
  let userSensitivity := if userSensitivity < 1 ∨ userSensitivity > 10
    then max 1 (min 10 userSensitivity) else userSensitivity
  let riskScore := (pollenIndex * userSensitivity) / 10
  (jsRound (riskScore * 10) : ℚ) / 10

/-- getRiskLevel from calculateRisk.ts lines 86-96. -/
def getRiskLevel (riskScore : ℚ) : RiskLevel :=
  if riskScore < RISK_CONFIG.thresholds.low then .low
  else if riskScore < RISK_CONFIG.thresholds.moderate then .moderate
  else if riskScore < RISK_CONFIG.thresholds.high then .high
  else .veryHigh

/-- Pollen categories of types/pollen PollenType. -/
inductive PollenType
  | TREE
  | GRASS
  | WEED
deriving DecidableEq, Repr

/-- The indexInfo record of a pollen type as the code accesses it:
the value reached through the optional chain indexInfo?.value. -/
structure IndexInfo where
  value : Option ℚ
deriving DecidableEq

/-- One entry of the pollenTypeInfo array of a daily API response.
Fields the code reads through optional chains are Options. -/
structure PollenTypeInfo where
  code : PollenType
  displayName : Option String
  indexInfo : Option IndexInfo
  inSeason : Option Bool
  healthRecommendations : Option (List String)
deriving DecidableEq

/-- One day of raw pollen data from the API (DailyPollenInfo). -/
structure DailyPollenInfo where
  date : String
  pollenTypeInfo : List PollenTypeInfo
deriving DecidableEq

/-- The three-axis user sensitivity profile (types/user SensitivityProfile). -/
structure SensitivityProfile where
  tree : ℚ
  grass : ℚ
  weed : ℚ
deriving DecidableEq

/-- Lower-case fallback display name used by extractPollenTypeData. -/
def pollenTypeLowerName : PollenType → String
  | .TREE => "tree"
  | .GRASS => "grass"
  | .WEED => "weed"

/-- Result shape of extractPollenTypeData. -/
structure ExtractedPollenData where
  index : ℚ
  inSeason : Bool
  displayName : String
deriving DecidableEq

/-- extractPollenTypeData from calculateRisk.ts lines 140-148: find the entry
for the target type and default every missing piece of data. -/
def extractPollenTypeData (pollenTypes : List PollenTypeInfo) (targetType : PollenType) :
    ExtractedPollenData :=
  let pollenData := pollenTypes.find? (fun p => p.code == targetType)
  { index := ((pollenData.bind (fun p => p.indexInfo)).bind (fun i => i.value)).getD 0
    inSeason := (pollenData.bind (fun p => p.inSeason)).getD false
    displayName := (pollenData.bind (fun p => p.displayName)).getD
      (pollenTypeLowerName targetType) }

/-- calculateOverallRisk from calculateRisk.ts lines 159-170: weighted average
of the three category scores with the RISK_CONFIG weights, rounded to one
decimal place. -/
def calculateOverallRisk (treeScore grassScore weedScore : ℚ) : ℚ :=
  let totalWeight := RISK_CONFIG.weights.tree + RISK_CONFIG.weights.grass +
    RISK_CONFIG.weights.weed
  let weightedSum := treeScore * RISK_CONFIG.weights.tree +
    grassScore * RISK_CONFIG.weights.grass + weedScore * RISK_CONFIG.weights.weed
  let overallScore := weightedSum / totalWeight
  (jsRound (overallScore * 10) : ℚ) / 10

/-- Insertion into a JavaScript Set preserves first-appearance order and
drops later duplicates; adding one element to the ordered view. -/
def addRecommendation (acc : List String) (rec : String) : List String :=
  if rec ∈ acc then acc else acc ++ [rec]

/-- consolidateHealthRecommendations from calculateRisk.ts lines 179-191:
collect the recommendations of the in-season pollen types into a Set
(first-appearance order, deduplicated) and keep the first five. The guard
mirrors the JavaScript truthiness test on inSeason and the presence test on
healthRecommendations. -/
def consolidateHealthRecommendations (pollenTypes : List PollenTypeInfo) : List String :=
  let recommendations := pollenTypes.foldl
    (fun acc pollenType =>
      if (pollenType.inSeason.getD false) && pollenType.healthRecommendations.isSome then
        (pollenType.healthRecommendations.getD []).foldl addRecommendation acc
      else acc) []
  recommendations.take 5

/-- Per-category slice of the processed result. -/
structure CategoryResult where
  index : ℚ
  risk : RiskLevel
  score : ℚ
  inSeason : Bool
deriving DecidableEq

/-- The three per-category slices of the processed result. -/
structure PollenTypesResult where
  tree : CategoryResult
  grass : CategoryResult
  weed : CategoryResult
deriving DecidableEq

/-- ProcessedPollenData: the full personalized risk assessment for one day.
The lastUpdated wall-clock Date is modelled as an abstract tick. -/
structure ProcessedPollenData where
  date : String
  location : String
  overallRisk : RiskLevel
  overallScore : ℚ
  pollenTypes : PollenTypesResult
  recommendations : List String
  lastUpdated : ℕ
deriving DecidableEq

/-- The locationName fallback uses the JavaScript or-operator, under which
an empty string also falls back to the placeholder. -/
def locationNameOrDefault (locationName : Option String) : String :=
  match locationName with
  | some s => if s = "" then "Current Location" else s
  | none => "Current Location"

/-- calculatePersonalizedRisk from calculateRisk.ts lines 202-257. The wall
clock used for lastUpdated is passed in as the parameter now. -/
def calculatePersonalizedRisk (dailyPollenData : DailyPollenInfo)
    (userSensitivity : SensitivityProfile) (locationName : Option String)
    (now : ℕ) : ProcessedPollenData :=
  let treeData := extractPollenTypeData dailyPollenData.pollenTypeInfo .TREE
  let grassData := extractPollenTypeData dailyPollenData.pollenTypeInfo .GRASS
  let weedData := extractPollenTypeData dailyPollenData.pollenTypeInfo .WEED
  let treeScore := calculatePollenRiskScore treeData.index userSensitivity.tree
  let grassScore := calculatePollenRiskScore grassData.index userSensitivity.grass
  let weedScore := calculatePollenRiskScore weedData.index userSensitivity.weed
  let overallScore := calculateOverallRisk treeScore grassScore weedScore
  let treeRisk := getRiskLevel treeScore
  let grassRisk := getRiskLevel grassScore
  let weedRisk := getRiskLevel weedScore
  let overallRisk := getRiskLevel overallScore
  let recommendations := consolidateHealthRecommendations dailyPollenData.pollenTypeInfo
  { date := dailyPollenData.date
    location := locationNameOrDefault locationName
    overallRisk := overallRisk
    overallScore := overallScore
    pollenTypes :=
      { tree := { index := treeData.index, risk := treeRisk, score := treeScore,
                  inSeason := treeData.inSeason }
        grass := { index := grassData.index, risk := grassRisk, score := grassScore,
                   inSeason := grassData.inSeason }
        weed := { index := weedData.index, risk := weedRisk, score := weedScore,
                  inSeason := weedData.inSeason } }
    recommendations := recommendations
    lastUpdated := now }

/-! Claim theorems for the risk engine. -/

/-- C1: calculatePollenRiskScore clamps rawIndex into the interval from 0 to 5
and sensitivity into the interval from 1 to 10, and returns the product
divided by 10, rounded to one decimal place; hence the quoted examples hold
and out-of-range inputs give the same result as their clamped values. -/
theorem claim_C1_score_formula (rawIndex sensitivity : ℚ) :
    calculatePollenRiskScore rawIndex sensitivity =
      roundTo1 (clampQ 0 5 rawIndex * clampQ 1 10 sensitivity / 10) ∧
    calculatePollenRiskScore 3 5 = 1.5 ∧
    calculatePollenRiskScore 4 7 = 2.8 ∧
    calculatePollenRiskScore 5 10 = 5 ∧
    calculatePollenRiskScore (-1) 5 = calculatePollenRiskScore 0 5 ∧
    calculatePollenRiskScore 10 5 = calculatePollenRiskScore 5 5 := by
  refine ⟨?_, by norm_num [calculatePollenRiskScore, jsRound],
    by norm_num [calculatePollenRiskScore, jsRound],
    by norm_num [calculatePollenRiskScore, jsRound],
    by norm_num [calculatePollenRiskScore, jsRound],
    by norm_num [calculatePollenRiskScore, jsRound]⟩
  simp only [calculatePollenRiskScore, roundTo1, clampQ, jsRound]
  have hr : (if rawIndex < 0 ∨ rawIndex > 5
      then max 0 (min 5 rawIndex) else rawIndex) = max 0 (min 5 rawIndex) := by
    split_ifs with h
    · rfl
    · push_neg at h
      rw [min_eq_right h.2, max_eq_right h.1]
  have hs : (if sensitivity < 1 ∨ sensitivity > 10
      then max 1 (min 10 sensitivity) else sensitivity) = max 1 (min 10 sensitivity) := by
    split_ifs with h
    · rfl
    · push_neg at h
      rw [min_eq_right h.2, max_eq_right h.1]
  rw [hr, hs]

/-- C2: getRiskLevel realizes the four half-open bands, inclusive on the
lower end: below 2 low, from 2 below 5 moderate, from 5 below 8 high, from 8
on very-high; in particular a score of 5 is high and a score of 8 is
very-high. -/
theorem claim_C2_risk_bands (s : ℚ) :
    ((getRiskLevel s = RiskLevel.low ↔ s < 2) ∧
     (getRiskLevel s = RiskLevel.moderate ↔ 2 ≤ s ∧ s < 5) ∧
     (getRiskLevel s = RiskLevel.high ↔ 5 ≤ s ∧ s < 8) ∧
     (getRiskLevel s = RiskLevel.veryHigh ↔ 8 ≤ s)) ∧
    getRiskLevel 5 = RiskLevel.high ∧ getRiskLevel 8 = RiskLevel.veryHigh := by
  refine ⟨?_, by norm_num [getRiskLevel, RISK_CONFIG],
    by norm_num [getRiskLevel, RISK_CONFIG]⟩
  unfold getRiskLevel RISK_CONFIG
  split_ifs with h1 h2 h3 <;>
    refine ⟨?_, ?_, ?_, ?_⟩ <;>
    simp_all <;>
    first
      | linarith
      | (intro h; linarith)

/-! Bounds of the score functions, used for C5 and C10. -/

/-- The category score is always between 0 and 5: both factors are clamped
before the product is taken and rounding keeps the interval. -/
theorem calculatePollenRiskScore_bounds (r s : ℚ) :
    0 ≤ calculatePollenRiskScore r s ∧ calculatePollenRiskScore r s ≤ 5 := by
  simp only [calculatePollenRiskScore, jsRound]
  set p := if r < 0 ∨ r > 5 then max 0 (min 5 r) else r with hp
  set q := if s < 1 ∨ s > 10 then max 1 (min 10 s) else s with hq
  have hp0 : 0 ≤ p := by
    rw [hp]; split_ifs with h
    · exact le_max_left _ _
    · push_neg at h; exact h.1
  have hp5 : p ≤ 5 := by
    rw [hp]; split_ifs with h
    · exact max_le (by norm_num) (min_le_left _ _)
    · push_neg at h; exact h.2
  have hq0 : 0 ≤ q := by
    rw [hq]; split_ifs with h
    · exact le_trans zero_le_one (le_max_left _ _)
    · push_neg at h; linarith [h.1]
  have hq10 : q ≤ 10 := by
    rw [hq]; split_ifs with h
    · exact max_le (by norm_num) (min_le_left _ _)
    · push_neg at h; exact h.2
  have hxeq : p * q / 10 * 10 = p * q := by ring
  rw [hxeq]
  have hpq0 : 0 ≤ p * q := mul_nonneg hp0 hq0
  have hpq50 : p * q ≤ 50 := by
    have := mul_le_mul hp5 hq10 hq0 (by norm_num : (0:ℚ) ≤ 5)
    linarith
  constructor
  · have h1 : (0:ℤ) ≤ ⌊p * q + 1/2⌋ := Int.floor_nonneg.mpr (by linarith)
    have h1q : (0:ℚ) ≤ ((⌊p * q + 1/2⌋ : ℤ) : ℚ) := by exact_mod_cast h1
    linarith
  · have h2 : ⌊p * q + 1/2⌋ ≤ ⌊(101:ℚ)/2⌋ := Int.floor_le_floor (by linarith)
    have h3 : ⌊(101:ℚ)/2⌋ = 50 := by norm_num
    have h4 : ((⌊p * q + 1/2⌋ : ℤ) : ℚ) ≤ 50 := by
      rw [h3] at h2; exact_mod_cast h2
    linarith

/-- The rounded weighted average of three scores in the interval from 0 to 5
stays in that interval. -/
theorem calculateOverallRisk_bounds {t g w : ℚ}
    (ht : 0 ≤ t ∧ t ≤ 5) (hg : 0 ≤ g ∧ g ≤ 5) (hw : 0 ≤ w ∧ w ≤ 5) :
    0 ≤ calculateOverallRisk t g w ∧ calculateOverallRisk t g w ≤ 5 := by
  simp only [calculateOverallRisk, RISK_CONFIG, jsRound]
  constructor
  · have h1 : (0:ℤ) ≤ ⌊(t * 1 + g * 1 + w * 1) / (1 + 1 + 1) * 10 + 1/2⌋ :=
      Int.floor_nonneg.mpr (by nlinarith [ht.1, hg.1, hw.1])
    have h1q : (0:ℚ) ≤ ((⌊(t * 1 + g * 1 + w * 1) / (1 + 1 + 1) * 10 + 1/2⌋ : ℤ) : ℚ) := by
      exact_mod_cast h1
    linarith
  · have h2 : ⌊(t * 1 + g * 1 + w * 1) / (1 + 1 + 1) * 10 + 1/2⌋ ≤ ⌊(101:ℚ)/2⌋ :=
      Int.floor_le_floor (by nlinarith [ht.2, hg.2, hw.2])
    have h3 : ⌊(101:ℚ)/2⌋ = 50 := by norm_num
    have h4 : ((⌊(t * 1 + g * 1 + w * 1) / (1 + 1 + 1) * 10 + 1/2⌋ : ℤ) : ℚ) ≤ 50 := by
      rw [h3] at h2; exact_mod_cast h2
    linarith

/-- Scores below 8 never classify as very-high. -/
theorem getRiskLevel_mem_of_lt_eight {s : ℚ} (h : s < 8) :
    getRiskLevel s ∈ [RiskLevel.low, RiskLevel.moderate, RiskLevel.high] := by
  unfold getRiskLevel RISK_CONFIG
  split_ifs <;> simp_all

/-- The weighted average with the MVP weights is the plain arithmetic mean. -/
theorem calculateOverallRisk_eq_mean (t g w : ℚ) :
    calculateOverallRisk t g w = roundTo1 ((t + g + w) / 3) := by
  simp only [calculateOverallRisk, roundTo1, RISK_CONFIG, jsRound]
  have harg : (t * 1 + g * 1 + w * 1) / (1 + 1 + 1) * 10 = (t + g + w) / 3 * 10 := by
    ring
  rw [harg]

/-! Worked example of the spec for the aggregate (tree 3 at sensitivity 6,
grass 2 at sensitivity 4, weed 1 at sensitivity 8). -/

/-- Builder for one in-season category entry of the worked example. -/
def examplePollenEntry (c : PollenType) (v : ℚ) : PollenTypeInfo :=
  { code := c, displayName := none, indexInfo := some { value := some v },
    inSeason := some true, healthRecommendations := none }

/-- The worked-example measurement: indices tree 3, grass 2, weed 1. -/
def exampleDaily : DailyPollenInfo :=
  { date := "2025-04-01"
    pollenTypeInfo := [examplePollenEntry .TREE 3, examplePollenEntry .GRASS 2,
      examplePollenEntry .WEED 1] }

/-- The worked-example profile: sensitivities tree 6, grass 4, weed 8. -/
def exampleSensitivity : SensitivityProfile := { tree := 6, grass := 4, weed := 8 }

/-- C5: the aggregate score is the unweighted arithmetic mean of the three
category scores rounded to one decimal place (the configured weights are all
one), the aggregate level is getRiskLevel of the aggregate score, and the
worked example gives category scores 1.8, 0.8, 0.8, aggregate 1.1, level
low. -/
theorem claim_C5_aggregate_mean (d : DailyPollenInfo) (sens : SensitivityProfile)
    (locName : Option String) (now : ℕ) :
    (RISK_CONFIG.weights.tree = 1 ∧ RISK_CONFIG.weights.grass = 1 ∧
      RISK_CONFIG.weights.weed = 1) ∧
    (calculatePersonalizedRisk d sens locName now).overallScore =
      roundTo1 (((calculatePersonalizedRisk d sens locName now).pollenTypes.tree.score +
        (calculatePersonalizedRisk d sens locName now).pollenTypes.grass.score +
        (calculatePersonalizedRisk d sens locName now).pollenTypes.weed.score) / 3) ∧
    (calculatePersonalizedRisk d sens locName now).overallRisk =
      getRiskLevel (calculatePersonalizedRisk d sens locName now).overallScore ∧
    (calculatePersonalizedRisk exampleDaily exampleSensitivity none 0).pollenTypes.tree.score
      = 1.8 ∧
    (calculatePersonalizedRisk exampleDaily exampleSensitivity none 0).pollenTypes.grass.score
      = 0.8 ∧
    (calculatePersonalizedRisk exampleDaily exampleSensitivity none 0).pollenTypes.weed.score
      = 0.8 ∧
    (calculatePersonalizedRisk exampleDaily exampleSensitivity none 0).overallScore = 1.1 ∧
    (calculatePersonalizedRisk exampleDaily exampleSensitivity none 0).overallRisk
      = RiskLevel.low := by
  have s1 : calculatePollenRiskScore 3 6 = 1.8 := by
    norm_num [calculatePollenRiskScore, jsRound]
  have s2 : calculatePollenRiskScore 2 4 = 0.8 := by
    norm_num [calculatePollenRiskScore, jsRound]
  have s3 : calculatePollenRiskScore 1 8 = 0.8 := by
    norm_num [calculatePollenRiskScore, jsRound]
  have s4 : calculateOverallRisk 1.8 0.8 0.8 = 1.1 := by
    norm_num [calculateOverallRisk, RISK_CONFIG, jsRound]
  have e1 : (calculatePersonalizedRisk exampleDaily exampleSensitivity none 0).pollenTypes.tree.score
      = calculatePollenRiskScore 3 6 := rfl
  have e2 : (calculatePersonalizedRisk exampleDaily exampleSensitivity none 0).pollenTypes.grass.score
      = calculatePollenRiskScore 2 4 := rfl
  have e3 : (calculatePersonalizedRisk exampleDaily exampleSensitivity none 0).pollenTypes.weed.score
      = calculatePollenRiskScore 1 8 := rfl
  have e4 : (calculatePersonalizedRisk exampleDaily exampleSensitivity none 0).overallScore
      = calculateOverallRisk (calculatePollenRiskScore 3 6) (calculatePollenRiskScore 2 4)
          (calculatePollenRiskScore 1 8) := rfl
  have e5 : (calculatePersonalizedRisk exampleDaily exampleSensitivity none 0).overallRisk
      = getRiskLevel ((calculatePersonalizedRisk exampleDaily exampleSensitivity none 0).overallScore) := rfl
  refine ⟨⟨rfl, rfl, rfl⟩, ?_, rfl, by rw [e1, s1], by rw [e2, s2], by rw [e3, s3],
    by rw [e4, s1, s2, s3, s4], ?_⟩
  · have emean : (calculatePersonalizedRisk d sens locName now).overallScore =
        calculateOverallRisk
          (calculatePersonalizedRisk d sens locName now).pollenTypes.tree.score
          (calculatePersonalizedRisk d sens locName now).pollenTypes.grass.score
          (calculatePersonalizedRisk d sens locName now).pollenTypes.weed.score := rfl
    rw [emean, calculateOverallRisk_eq_mean]
  · rw [e5, e4, s1, s2, s3, s4]
    norm_num [getRiskLevel, RISK_CONFIG]

/-- C10: every risk level produced by calculatePersonalizedRisk, per category
and aggregate, is low, moderate or high; very-high cannot occur because each
clamped category score is at most 5, so the rounded mean is at most 5,
below the very-high band that starts at 8. -/
theorem claim_C10_never_very_high (d : DailyPollenInfo) (sens : SensitivityProfile)
    (locName : Option String) (now : ℕ) :
    (calculatePersonalizedRisk d sens locName now).pollenTypes.tree.risk
      ∈ [RiskLevel.low, RiskLevel.moderate, RiskLevel.high] ∧
    (calculatePersonalizedRisk d sens locName now).pollenTypes.grass.risk
      ∈ [RiskLevel.low, RiskLevel.moderate, RiskLevel.high] ∧
    (calculatePersonalizedRisk d sens locName now).pollenTypes.weed.risk
      ∈ [RiskLevel.low, RiskLevel.moderate, RiskLevel.high] ∧
    (calculatePersonalizedRisk d sens locName now).overallRisk
      ∈ [RiskLevel.low, RiskLevel.moderate, RiskLevel.high] := by
  have ht := calculatePollenRiskScore_bounds
    (extractPollenTypeData d.pollenTypeInfo .TREE).index sens.tree
  have hg := calculatePollenRiskScore_bounds
    (extractPollenTypeData d.pollenTypeInfo .GRASS).index sens.grass
  have hw := calculatePollenRiskScore_bounds
    (extractPollenTypeData d.pollenTypeInfo .WEED).index sens.weed
  have hov := calculateOverallRisk_bounds ht hg hw
  have et : (calculatePersonalizedRisk d sens locName now).pollenTypes.tree.risk
      = getRiskLevel (calculatePollenRiskScore
          (extractPollenTypeData d.pollenTypeInfo .TREE).index sens.tree) := rfl
  have eg : (calculatePersonalizedRisk d sens locName now).pollenTypes.grass.risk
      = getRiskLevel (calculatePollenRiskScore
          (extractPollenTypeData d.pollenTypeInfo .GRASS).index sens.grass) := rfl
  have ew : (calculatePersonalizedRisk d sens locName now).pollenTypes.weed.risk
      = getRiskLevel (calculatePollenRiskScore
          (extractPollenTypeData d.pollenTypeInfo .WEED).index sens.weed) := rfl
  have eo : (calculatePersonalizedRisk d sens locName now).overallRisk
      = getRiskLevel (calculateOverallRisk
          (calculatePollenRiskScore (extractPollenTypeData d.pollenTypeInfo .TREE).index sens.tree)
          (calculatePollenRiskScore (extractPollenTypeData d.pollenTypeInfo .GRASS).index sens.grass)
          (calculatePollenRiskScore (extractPollenTypeData d.pollenTypeInfo .WEED).index sens.weed)) := rfl
  refine ⟨?_, ?_, ?_, ?_⟩
  · rw [et]; exact getRiskLevel_mem_of_lt_eight (lt_of_le_of_lt ht.2 (by norm_num))
  · rw [eg]; exact getRiskLevel_mem_of_lt_eight (lt_of_le_of_lt hg.2 (by norm_num))
  · rw [ew]; exact getRiskLevel_mem_of_lt_eight (lt_of_le_of_lt hw.2 (by norm_num))
  · rw [eo]; exact getRiskLevel_mem_of_lt_eight (lt_of_le_of_lt hov.2 (by norm_num))

/-! The advisory list (C8). -/

/-- The advisories of exactly the in-season categories, in order of
appearance, before deduplication: the specification-side description. -/
def inSeasonAdvisories (pollenTypes : List PollenTypeInfo) : List String :=
  (pollenTypes.filter (fun pt => pt.inSeason.getD false)).flatMap
    (fun pt => pt.healthRecommendations.getD [])

/-- Deduplication keeping the first appearance of each string, the order a
JavaScript Set preserves. -/
def dedupFirst (l : List String) : List String := l.foldl addRecommendation []

/-- The nested fold of consolidateHealthRecommendations builds the same list
as a single ordered fold over the in-season advisories. -/
theorem consolidate_foldl_eq (pollenTypes : List PollenTypeInfo) (acc : List String) :
    pollenTypes.foldl
      (fun acc pollenType =>
        if (pollenType.inSeason.getD false) && pollenType.healthRecommendations.isSome then
          (pollenType.healthRecommendations.getD []).foldl addRecommendation acc
        else acc) acc
    = (inSeasonAdvisories pollenTypes).foldl addRecommendation acc := by
  induction pollenTypes generalizing acc with
  | nil => rfl
  | cons pt rest ih =>
    simp only [List.foldl_cons, inSeasonAdvisories, List.filter_cons]
    by_cases hIn : pt.inSeason.getD false
    · simp only [hIn, Bool.true_and, if_pos, decide_True]
      by_cases hSome : pt.healthRecommendations.isSome
      · simp only [hSome, if_true]
        rw [ih]
        simp only [inSeasonAdvisories, List.flatMap_cons, List.foldl_append]
      · simp only [hSome, if_false]
        rw [ih]
        simp only [inSeasonAdvisories, List.flatMap_cons, List.foldl_append]
        have hnone : pt.healthRecommendations = none := by
          cases h : pt.healthRecommendations with
          | none => rfl
          | some v => rw [h] at hSome; simp at hSome
        rw [hnone]
        rfl
    · simp only [hIn, Bool.false_and, Bool.false_eq_true, if_false]
      rw [ih]
      rfl

/-- C8: the surfaced advisory list is the first-appearance-ordered
deduplication of the advisories of exactly the in-season categories,
truncated to at most five entries. -/
theorem claim_C8_advisories (pollenTypes : List PollenTypeInfo) :
    consolidateHealthRecommendations pollenTypes
      = (dedupFirst (inSeasonAdvisories pollenTypes)).take 5 ∧
    (consolidateHealthRecommendations pollenTypes).length ≤ 5 := by
  have he : consolidateHealthRecommendations pollenTypes
      = (dedupFirst (inSeasonAdvisories pollenTypes)).take 5 := by
    simp only [consolidateHealthRecommendations, dedupFirst]
    rw [consolidate_foldl_eq]
  refine ⟨he, ?_⟩
  rw [he]
  exact List.length_take_le 5 _

/-! Sensitivity state manager: saveChanges from useSensitivity.ts (C6). -/

/-- The useSensitivity hook state (UseSensitivityState). -/
structure SensitivityState where
  sensitivity : SensitivityProfile
  hasChanges : Bool
  isDirty : Bool
  isLoading : Bool
  isSaving : Bool
  error : Option String
  isValid : Bool
deriving DecidableEq

/-- Hook state together with the separately tracked originalSensitivity
baseline used for change detection. -/
structure SensitivityModel where
  state : SensitivityState
  originalSensitivity : SensitivityProfile
deriving DecidableEq

/-- Outcome of the updateSensitivityProfile persistence collaborator:
it reports success, reports failure, or throws. -/
inductive PersistOutcome
  | ok
  | failed
  | threw
deriving DecidableEq

/-- Result of one saveChanges call: the final model, the returned boolean,
and whether the persistence collaborator was invoked at all. -/
structure SaveResult where
  model : SensitivityModel
  returned : Bool
  persistInvoked : Bool
deriving DecidableEq

/-- saveChanges from useSensitivity.ts lines 268-301: a no-op returning
success when nothing changed or the profile is invalid; otherwise persist
and either promote the profile to the new baseline and clear the dirty
flags, or record one of the two failure messages. The collaborator outcome
is an input of the model. -/
def saveChanges (m : SensitivityModel) (persist : PersistOutcome) : SaveResult :=
  if !m.state.hasChanges || !m.state.isValid then
    { model := m, returned := true, persistInvoked := false }
  else
    match persist with
    | .ok =>
      { model :=
          { state :=
              { m.state with
                isSaving := false
                hasChanges := false
                isDirty := false
                error := none }
            originalSensitivity := m.state.sensitivity }
        returned := true
        persistInvoked := true }
    | .failed =>
      { model :=
          { m with state :=
              { m.state with
                isSaving := false
                error := some "Failed to save sensitivity settings. Please try again." } }
        returned := false
        persistInvoked := true }
    | .threw =>
      { model :=
          { m with state :=
              { m.state with
                isSaving := false
                error := some "Unable to save settings. Please check your browser storage." } }
        returned := false
        persistInvoked := true }

/-- C6: with no pending changes, or with an invalid profile, saveChanges
returns success, does not invoke the persistence collaborator, and leaves
the whole model (profile, baseline, dirty flag) unchanged. -/
theorem claim_C6_save_noop (m : SensitivityModel) (persist : PersistOutcome)
    (h : m.state.hasChanges = false ∨ m.state.isValid = false) :
    saveChanges m persist = { model := m, returned := true, persistInvoked := false } := by
  unfold saveChanges
  rcases h with h | h <;> rw [h] <;> simp

/-- A concrete model with the default profile and no pending changes. -/
def cleanSensitivityModel : SensitivityModel :=
  { state :=
      { sensitivity := { tree := 5, grass := 5, weed := 5 }
        hasChanges := false
        isDirty := false
        isLoading := false
        isSaving := false
        error := none
        isValid := true }
    originalSensitivity := { tree := 5, grass := 5, weed := 5 } }

/-- Witness for C6 at a concrete dirty-free model. -/
theorem claim_C6_save_noop_witness :
    saveChanges cleanSensitivityModel PersistOutcome.ok
      = { model := cleanSensitivityModel, returned := true, persistInvoked := false } :=
  claim_C6_save_noop cleanSensitivityModel PersistOutcome.ok (Or.inl rfl)

/-! Forecast orchestrator: fetchData of usePollenData (C4 and C7). -/

/-- A run of zeros used for fixed-width decimal printing. -/
def zeros : ℕ → String
  | 0 => ""
  | n + 1 => "0" ++ zeros n

/-- Pads a digit string on the left with zeros up to the given width. -/
def zeroPadLeft (w : ℕ) (s : String) : String :=
  zeros (w - s.length) ++ s

/-- Number.prototype.toFixed over the rationals: the sign of the input,
then the value rounded to the given number of fraction digits with ties
toward the larger candidate, printed with exactly that many digits. -/
def toFixedQ (digits : ℕ) (x : ℚ) : String :=
  let n : ℤ := jsRound (|x| * (10 : ℚ) ^ digits)
  let ip : ℤ := n / (10 : ℤ) ^ digits
  let fp : ℤ := n % (10 : ℤ) ^ digits
  (if x < 0 then "-" else "") ++ toString ip ++ "." ++ zeroPadLeft digits (toString fp)

/-- JavaScript truthiness of an optional string: present and nonempty. -/
def strTruthy : Option String → Bool
  | some s => s != ""
  | none => false

/-- The location type consumed by the orchestrator (types/user Location),
with the fields formatLocationDisplay and the fetch key read. Coordinates
are rationals so that the decimal rounding of the fetch key is exact. -/
structure LocationQ where
  latitude : ℚ
  longitude : ℚ
  displayName : Option String
  city : Option String
  state : Option String
deriving DecidableEq

/-- formatLocationDisplay from the location service: display name if
truthy, else city-and-region forms, else coordinates with four decimal
digits. -/
def formatLocationDisplay (location : LocationQ) : String :=
  if strTruthy location.displayName then location.displayName.getD ""
  else if strTruthy location.city && strTruthy location.state then
    (location.city.getD "") ++ ", " ++ (location.state.getD "")
  else if strTruthy location.city then location.city.getD ""
  else toFixedQ 4 location.latitude ++ ", " ++ toFixedQ 4 location.longitude

/-- The request-identity key of fetchData: latitude and longitude printed
with toFixed(6), the day count, and the serialized sensitivity profile.
The concatenated id string of the code is uniquely parseable back into
these components, so equality of id strings is equality of this record;
JSON serialization of the fixed-shape profile is injective, so the profile
itself stands in for its serialization. -/
structure RequestKey where
  lat6 : String
  lng6 : String
  days : ℕ
  sensitivity : SensitivityProfile
deriving DecidableEq

/-- Builds the fetch id of a request, as fetchData does. -/
def requestKey (location : LocationQ) (days : ℕ) (sensitivity : SensitivityProfile) :
    RequestKey :=
  { lat6 := toFixedQ 6 location.latitude
    lng6 := toFixedQ 6 location.longitude
    days := days
    sensitivity := sensitivity }

/-- Error taxonomy of the pollen service (PollenErrorType). -/
inductive PollenErrorType
  | NETWORK_ERROR
  | RATE_LIMITED
  | NO_DATA_AVAILABLE
  | INVALID_API_KEY
  | UNKNOWN
deriving DecidableEq

/-- A structured pollen error (PollenError). -/
structure PollenError where
  type : PollenErrorType
  message : String
deriving DecidableEq

/-- The raw API response consumed by fetchData (PollenResponse). -/
structure PollenResponse where
  dailyInfo : List DailyPollenInfo
deriving DecidableEq

/-- processPollenData of usePollenData: score every returned day with the
user profile and the formatted location name. -/
def processPollenData (pollenResponse : PollenResponse)
    (sensitivity : SensitivityProfile) (location : LocationQ) (now : ℕ) :
    List ProcessedPollenData :=
  pollenResponse.dailyInfo.map (fun dailyData =>
    calculatePersonalizedRisk dailyData sensitivity
      (some (formatLocationDisplay location)) now)

/-- The UsePollenDataState slice that fetchData mutates. -/
structure PollenDataState where
  current : Option ProcessedPollenData
  forecast : List ProcessedPollenData
  isLoading : Bool
  isRefreshing : Bool
  error : Option PollenError
  lastUpdated : Option ℕ
  location : Option LocationQ
  dataAge : ℕ
deriving DecidableEq

/-- The mutable refs of the hook: the id of the most recently initiated
request, the identity of the live abort controller, the log of aborted
controllers, and the parameters remembered for retry. -/
structure FetchRefs where
  lastFetchId : Option RequestKey
  inflight : Option RequestKey
  abortedKeys : List RequestKey
  lastFetchParams : Option (LocationQ × SensitivityProfile × ℕ)
deriving DecidableEq

/-- Hook state and refs together. -/
structure FetchModel where
  state : PollenDataState
  refs : FetchRefs
deriving DecidableEq

/-- How the awaited fetch resolves: with a response, by abort, or with an
error. -/
inductive FetchOutcome
  | success (response : PollenResponse)
  | aborted
  | failure (e : PollenError)

/-- fetchData of usePollenData: skip when the id equals the most recently
initiated id; otherwise abort any live controller, record the new id and
parameters, raise the loading or refreshing flag, and resolve the awaited
fetch according to the outcome: store processed data (an empty list is the
no-data error), clear flags silently on abort, or record the error. The
id is cleared again on completion and on error, not on abort. -/
def fetchDataRun (m : FetchModel) (location : LocationQ)
    (sensitivity : SensitivityProfile) (days : ℕ) (outcome : FetchOutcome)
    (now : ℕ) : FetchModel :=
  let fetchId := requestKey location days sensitivity
  if m.refs.lastFetchId = some fetchId then m
  else
    let refs1 : FetchRefs :=
      { lastFetchId := some fetchId
        abortedKeys :=
          match m.refs.inflight with
          | some k => m.refs.abortedKeys ++ [k]
          | none => m.refs.abortedKeys
        inflight := some fetchId
        lastFetchParams := some (location, sensitivity, days) }
    let st1 : PollenDataState :=
      { m.state with
        isLoading := m.state.current.isNone
        isRefreshing := m.state.current.isSome
        error := none }
    match outcome with
    | .aborted =>
      { state := { st1 with isLoading := false, isRefreshing := false }
        refs := refs1 }
    | .success response =>
      let processedData := processPollenData response sensitivity location now
      if processedData.isEmpty then
        { state :=
            { st1 with
              error := some
                { type := PollenErrorType.NO_DATA_AVAILABLE
                  message := "No pollen data available for this location." }
              isLoading := false
              isRefreshing := false }
          refs := { refs1 with lastFetchId := none } }
      else
        { state :=
            { st1 with
              current := processedData.head?
              forecast := processedData
              isLoading := false
              isRefreshing := false
              error := none
              lastUpdated := some now
              location := some location
              dataAge := 0 }
          refs := { refs1 with lastFetchId := none } }
    | .failure e =>
      { state := { st1 with error := some e, isLoading := false, isRefreshing := false }
        refs := { refs1 with lastFetchId := none } }

/-- C4: a call whose request key equals the most recently initiated one is
a complete no-op, and a call with a different key aborts the in-flight
controller. -/
theorem claim_C4_fetch_dedup (m : FetchModel) (location : LocationQ)
    (sensitivity : SensitivityProfile) (days : ℕ) (outcome : FetchOutcome)
    (now : ℕ) :
    (m.refs.lastFetchId = some (requestKey location days sensitivity) →
      fetchDataRun m location sensitivity days outcome now = m) ∧
    (∀ k, m.refs.lastFetchId ≠ some (requestKey location days sensitivity) →
      m.refs.inflight = some k →
      k ∈ (fetchDataRun m location sensitivity days outcome now).refs.abortedKeys) := by
  constructor
  · intro h
    unfold fetchDataRun
    rw [if_pos h]
  · intro k hne hin
    unfold fetchDataRun
    rw [if_neg hne]
    cases outcome with
    | aborted => simp [hin]
    | success response =>
      by_cases hempty : (processPollenData response sensitivity location now).isEmpty <;>
        simp [hin, hempty]
    | failure e => simp [hin]

/-- C7: an aborted fetch that was actually initiated clears both flags,
carries no error, and leaves the cached forecast data untouched. -/
theorem claim_C7_abort_silent (m : FetchModel) (location : LocationQ)
    (sensitivity : SensitivityProfile) (days : ℕ) (now : ℕ)
    (h : m.refs.lastFetchId ≠ some (requestKey location days sensitivity)) :
    (fetchDataRun m location sensitivity days FetchOutcome.aborted now).state.isLoading
      = false ∧
    (fetchDataRun m location sensitivity days FetchOutcome.aborted now).state.isRefreshing
      = false ∧
    (fetchDataRun m location sensitivity days FetchOutcome.aborted now).state.error
      = none ∧
    (fetchDataRun m location sensitivity days FetchOutcome.aborted now).state.forecast
      = m.state.forecast ∧
    (fetchDataRun m location sensitivity days FetchOutcome.aborted now).state.current
      = m.state.current := by
  unfold fetchDataRun
  rw [if_neg h]
  simp

/-! Concrete inputs for the fetch witnesses. -/

/-- The empty hook state before any data arrives. -/
def emptyPollenState : PollenDataState :=
  { current := none
    forecast := []
    isLoading := false
    isRefreshing := false
    error := none
    lastUpdated := none
    location := none
    dataAge := 0 }

/-- A concrete location at the origin. -/
def locOrigin : LocationQ :=
  { latitude := 0, longitude := 0, displayName := none, city := none, state := none }

/-- The default sensitivity profile, five on each axis. -/
def sensDefault : SensitivityProfile := { tree := 5, grass := 5, weed := 5 }

/-- The request key of the witness call. -/
def keyOrigin : RequestKey := requestKey locOrigin 3 sensDefault

/-- A model whose most recently initiated request already is the witness
call, with its controller live. -/
def modelWithKey : FetchModel :=
  { state := emptyPollenState
    refs :=
      { lastFetchId := some keyOrigin
        inflight := some keyOrigin
        abortedKeys := []
        lastFetchParams := none } }

/-- A model with no initiated request recorded but a live controller. -/
def modelNoKey : FetchModel :=
  { state := emptyPollenState
    refs :=
      { lastFetchId := none
        inflight := some keyOrigin
        abortedKeys := []
        lastFetchParams := none } }

/-- Witness for C4: the identical-key call is a no-op on modelWithKey, and
the call on modelNoKey aborts the live controller. -/
theorem claim_C4_fetch_dedup_witness :
    fetchDataRun modelWithKey locOrigin sensDefault 3 FetchOutcome.aborted 0
      = modelWithKey ∧
    keyOrigin ∈ (fetchDataRun modelNoKey locOrigin sensDefault 3
      FetchOutcome.aborted 0).refs.abortedKeys :=
  ⟨(claim_C4_fetch_dedup modelWithKey locOrigin sensDefault 3 FetchOutcome.aborted 0).1 rfl,
   (claim_C4_fetch_dedup modelNoKey locOrigin sensDefault 3 FetchOutcome.aborted 0).2
     keyOrigin (fun hcontra => Option.noConfusion hcontra) rfl⟩

/-- Witness for C7 on the concrete modelNoKey. -/
theorem claim_C7_abort_silent_witness :
    (fetchDataRun modelNoKey locOrigin sensDefault 3 FetchOutcome.aborted 0).state.isLoading
      = false ∧
    (fetchDataRun modelNoKey locOrigin sensDefault 3 FetchOutcome.aborted 0).state.isRefreshing
      = false ∧
    (fetchDataRun modelNoKey locOrigin sensDefault 3 FetchOutcome.aborted 0).state.error
      = none ∧
    (fetchDataRun modelNoKey locOrigin sensDefault 3 FetchOutcome.aborted 0).state.forecast
      = modelNoKey.state.forecast ∧
    (fetchDataRun modelNoKey locOrigin sensDefault 3 FetchOutcome.aborted 0).state.current
      = modelNoKey.state.current :=
  claim_C7_abort_silent modelNoKey locOrigin sensDefault 3 0
    (fun hcontra => Option.noConfusion hcontra)

/-! Geo-distance utility and the location significance check (C9 and C3).
Coordinates are reals here because the distance is trigonometric. -/

/-- A coordinate pair as consumed by calculateDistance. -/
structure LocationR where
  latitude : ℝ
  longitude : ℝ

open scoped Classical

/-- JavaScript Math.atan2 on the reals, by quadrant. -/
noncomputable def atan2 (y x : ℝ) : ℝ :=
  if 0 < x then Real.arctan (y / x)
  else if x < 0 ∧ 0 ≤ y then Real.arctan (y / x) + Real.pi
  else if x < 0 ∧ y < 0 then Real.arctan (y / x) - Real.pi
  else if x = 0 ∧ 0 < y then Real.pi / 2
  else if x = 0 ∧ y < 0 then -(Real.pi / 2)
  else 0

/-- The a-term of the Haversine formula in calculateDistance: squared sine
of half the latitude delta plus the product of the cosines of the latitudes
and the squared sine of half the longitude delta, all angles converted from
degrees to radians. -/
noncomputable def haversineA (location1 location2 : LocationR) : ℝ :=
  Real.sin ((location2.latitude - location1.latitude) * Real.pi / 180 / 2) *
    Real.sin ((location2.latitude - location1.latitude) * Real.pi / 180 / 2) +
  Real.cos (location1.latitude * Real.pi / 180) *
    Real.cos (location2.latitude * Real.pi / 180) *
    Real.sin ((location2.longitude - location1.longitude) * Real.pi / 180 / 2) *
    Real.sin ((location2.longitude - location1.longitude) * Real.pi / 180 / 2)

/-- calculateDistance of the location service: Haversine great-circle
distance with Earth radius 6371, so the returned unit is kilometers, as its
own doc comment states. -/
noncomputable def calculateDistance (location1 location2 : LocationR) : ℝ :=
  6371 * (2 * atan2 (Real.sqrt (haversineA location1 location2))
    (Real.sqrt (1 - haversineA location1 location2)))

/-- C9: the great-circle distance is symmetric in its two arguments and
zero for identical coordinates. -/
theorem claim_C9_distance_symmetry (a b : LocationR) :
    calculateDistance a b = calculateDistance b a ∧ calculateDistance a a = 0 := by
  have hsymm : haversineA a b = haversineA b a := by
    unfold haversineA
    have e1 : (a.latitude - b.latitude) * Real.pi / 180 / 2
        = -((b.latitude - a.latitude) * Real.pi / 180 / 2) := by ring
    have e2 : (a.longitude - b.longitude) * Real.pi / 180 / 2
        = -((b.longitude - a.longitude) * Real.pi / 180 / 2) := by ring
    rw [e1, e2]
    simp only [Real.sin_neg]
    ring
  have hzero : haversineA a a = 0 := by
    unfold haversineA
    have e1 : (a.latitude - a.latitude) * Real.pi / 180 / 2 = 0 := by ring
    have e2 : (a.longitude - a.longitude) * Real.pi / 180 / 2 = 0 := by ring
    rw [e1, e2, Real.sin_zero]
    ring
  constructor
  · unfold calculateDistance
    rw [hsymm]
  · unfold calculateDistance
    rw [hzero]
    have h1 : Real.sqrt 0 = 0 := Real.sqrt_zero
    have h2 : (1:ℝ) - 0 = 1 := by ring
    rw [h1, h2, Real.sqrt_one]
    unfold atan2
    rw [if_pos (by norm_num : (0:ℝ) < 1)]
    rw [zero_div, Real.arctan_zero]
    ring

/-- The significance threshold of the useLocation hook, the constant 1000
its configuration comment describes as one kilometer. -/
def LOCATION_HOOK_CONFIG_significantChangeDistance : ℝ := 1000

/-- The persisted location settings slice touched by detectLocation. -/
structure LocationSettingsR where
  current : Option LocationR
  useAutoDetection : Bool
  lastDetectionTime : Option ℕ

/-- The useLocation hook state slice touched by detectLocation. -/
structure LocationStateR where
  location : Option LocationR
  isLoading : Bool
  error : Option String
  settings : LocationSettingsR

/-- The success path of detectLocation in useLocation.ts lines 199-219,
applied to the freshly detected position: with a stored location closer
than the threshold the reading is discarded and only the loading flag
cleared; otherwise the location is accepted, the settings gain the new
current location and a detection timestamp, and the second component lists
the notified location. -/
noncomputable def detectLocationSuccess (st : LocationStateR) (detected : LocationR)
    (now : ℕ) : LocationStateR × List LocationR :=
  match st.location with
  | some currentLocation =>
    if calculateDistance currentLocation detected
        < LOCATION_HOOK_CONFIG_significantChangeDistance then
      ({ st with isLoading := false }, [])
    else
      ({ st with
          location := some detected
          error := none
          isLoading := false
          settings := { st.settings with
            current := some detected
            lastDetectionTime := some now } },
        [detected])
  | none =>
      ({ st with
          location := some detected
          error := none
          isLoading := false
          settings := { st.settings with
            current := some detected
            lastDetectionTime := some now } },
        [detected])

/-- The stored location of the failing input: the origin. -/
def locP : LocationR := { latitude := 0, longitude := 0 }

/-- The detected location of the failing input: one degree of latitude
north of the origin, about 111 kilometers away. -/
def locQ : LocationR := { latitude := 1, longitude := 0 }

/-- A hook state holding locP as the current location, mid-detection. -/
def stP : LocationStateR :=
  { location := some locP
    isLoading := true
    error := none
    settings := { current := some locP, useAutoDetection := true, lastDetectionTime := none } }

/-- C3, failing input: the detected point locQ lies at least 1000 meters
from the stored point locP (its distance in meters is 1000 times the
kilometers calculateDistance returns), yet detectLocation discards it,
because the kilometer-valued distance is compared against the threshold
1000 as if it were meters. The claim says a point at least 1000 meters
away is accepted. -/
theorem claim_C3_distance_unit_bug :
    1000 ≤ 1000 * calculateDistance locP locQ ∧
    detectLocationSuccess stP locQ 0 = ({ stP with isLoading := false }, []) := by
  have hpi := Real.pi_pos
  have hθpos : 0 < Real.pi / 360 := by positivity
  have hθlt : Real.pi / 360 < Real.pi / 2 := by nlinarith
  have hθltpi : Real.pi / 360 < Real.pi := by nlinarith
  have hsinpos : 0 < Real.sin (Real.pi / 360) :=
    Real.sin_pos_of_pos_of_lt_pi hθpos hθltpi
  have hcospos : 0 < Real.cos (Real.pi / 360) :=
    Real.cos_pos_of_mem_Ioo ⟨by linarith, hθlt⟩
  have hA : haversineA locP locQ = Real.sin (Real.pi / 360) * Real.sin (Real.pi / 360) := by
    unfold haversineA locP locQ
    have e1 : ((1:ℝ) - 0) * Real.pi / 180 / 2 = Real.pi / 360 := by ring
    have e2 : ((0:ℝ) - 0) * Real.pi / 180 / 2 = 0 := by ring
    simp only
    rw [e1, e2, Real.sin_zero]
    ring
  have h1mA : 1 - Real.sin (Real.pi / 360) * Real.sin (Real.pi / 360)
      = Real.cos (Real.pi / 360) * Real.cos (Real.pi / 360) := by
    have hpyth := Real.sin_sq_add_cos_sq (Real.pi / 360)
    nlinarith [hpyth]
  have hsqrtA : Real.sqrt (Real.sin (Real.pi / 360) * Real.sin (Real.pi / 360))
      = Real.sin (Real.pi / 360) := Real.sqrt_mul_self hsinpos.le
  have hsqrtC : Real.sqrt (Real.cos (Real.pi / 360) * Real.cos (Real.pi / 360))
      = Real.cos (Real.pi / 360) := Real.sqrt_mul_self hcospos.le
  have hatan : atan2 (Real.sin (Real.pi / 360)) (Real.cos (Real.pi / 360))
      = Real.pi / 360 := by
    unfold atan2
    rw [if_pos hcospos, ← Real.tan_eq_sin_div_cos,
      Real.arctan_tan (by linarith) hθlt]
  have hdist : calculateDistance locP locQ = 6371 * (2 * (Real.pi / 360)) := by
    unfold calculateDistance
    rw [hA, h1mA, hsqrtA, hsqrtC, hatan]
  constructor
  · rw [hdist]
    nlinarith [Real.pi_gt_three]
  · have hlt : calculateDistance locP locQ
        < LOCATION_HOOK_CONFIG_significantChangeDistance := by
      rw [hdist]
      unfold LOCATION_HOOK_CONFIG_significantChangeDistance
      nlinarith [Real.pi_lt_four]
    have hred : detectLocationSuccess stP locQ 0
        = (if calculateDistance locP locQ < LOCATION_HOOK_CONFIG_significantChangeDistance
           then ({ stP with isLoading := false }, [])
           else ({ stP with
              location := some locQ
              error := none
              isLoading := false
              settings := { stP.settings with
                current := some locQ
                lastDetectionTime := some 0 } }, [locQ])) := rfl
    rw [hred, if_pos hlt]

end PollenApp
